import Mathlib

/-!
Verification of the ngpre-wasm bridge (src/src/lib.rs): the element-type
registry and dispatch, the block wrapper family produced by the
data_block_monomorphizer macro, the promise reader facades, and the
attribute marshaler.  Parts of the program that live in external crates
(ngpre, serde_wasm_bindgen, the generated host glue) are modelled from the
specification and marked as such in their doc comments.
-/

/-- The ten supported element kinds of the element type registry
(the data_block_monomorphizer instantiations, src/src/lib.rs:331-340). -/
inductive ElementKind where
  | u8 | u16 | u32 | u64
  | i8 | i16 | i32 | i64
  | f32 | f64
  deriving DecidableEq, Repr

/-- Carrier of each element kind: unsigned integer kinds as Nat, signed kinds
as Int, floating kinds by their raw bit patterns as Nat (the bridge never
performs arithmetic on payload elements, it only moves them). -/
def scalar : ElementKind → Type
  | .u8 => Nat
  | .u16 => Nat
  | .u32 => Nat
  | .u64 => Nat
  | .i8 => Int
  | .i16 => Int
  | .i32 => Int
  | .i64 => Int
  | .f32 => Nat
  | .f64 => Nat

/-- Modelled from the spec: the runtime data-type tag naming each of the ten
element kinds (the tag strings of the external ngpre DataType). -/
def dataTypeTag : ElementKind → String
  | .u8 => "uint8"
  | .u16 => "uint16"
  | .u32 => "uint32"
  | .u64 => "uint64"
  | .i8 => "int8"
  | .i16 => "int16"
  | .i32 => "int32"
  | .i64 => "int64"
  | .f32 => "float32"
  | .f64 => "float64"

/-- Modelled from the spec: resolution of a runtime data-type tag in the
element type registry; any tag other than the ten known ones resolves to
nothing (the data_type_match dispatch lives in the external ngpre crate). -/
def parseDataType : String → Option ElementKind
  | "uint8" => some .u8
  | "uint16" => some .u16
  | "uint32" => some .u32
  | "uint64" => some .u64
  | "int8" => some .i8
  | "int16" => some .i16
  | "int32" => some .i32
  | "int64" => some .i64
  | "float32" => some .f32
  | "float64" => some .f64
  | _ => none

/-- Modelled from the spec: ngpre's VecDataBlock - per-axis block size (u32),
per-axis grid position (u64, hence Nat), and a contiguous payload. -/
structure VecDataBlock (α : Type) where
  size : List Nat
  grid_position : List Nat
  data : List α

/-- The body of the data_block_monomorphizer macro (src/src/lib.rs:281-329):
each generated wrapper struct pairs a VecDataBlock with an optional etag. -/
structure WrappedBlock (α : Type) where
  block : VecDataBlock α
  etag : Option String

/-- From the macro's plain-block conversion (src/src/lib.rs:290-294):
the etag defaults to absent. -/
def WrappedBlock.fromBlock (block : VecDataBlock α) : WrappedBlock α :=
  ⟨block, none⟩

/-- From the macro's pair conversion (src/src/lib.rs:296-300): the etag is
exactly the optional tag of the pair. -/
def WrappedBlock.fromPair (p : VecDataBlock α × Option String) : WrappedBlock α :=
  ⟨p.1, p.2⟩

/-- Wrapper accessor get_size (src/src/lib.rs:304-306). -/
def WrappedBlock.get_size (w : WrappedBlock α) : List Nat :=
  w.block.size

/-- Wrapper accessor get_grid_position (src/src/lib.rs:308-310): the stored
u64 coordinates. -/
def WrappedBlock.get_grid_position (w : WrappedBlock α) : List Nat :=
  w.block.grid_position

/-- Wrapper accessor get_data (src/src/lib.rs:312-314): a copy of the payload. -/
def WrappedBlock.get_data (w : WrappedBlock α) : List α :=
  w.block.data

/-- Wrapper operation into_data (src/src/lib.rs:316-318): yields the payload,
consuming the wrapper (it takes the receiver by value in the source). -/
def WrappedBlock.into_data (w : WrappedBlock α) : List α :=
  w.block.data

/-- Wrapper accessor get_num_elements (src/src/lib.rs:320-322). -/
def WrappedBlock.get_num_elements (w : WrappedBlock α) : Nat :=
  w.block.data.length

/-- Wrapper accessor get_etag (src/src/lib.rs:324-326). -/
def WrappedBlock.get_etag (w : WrappedBlock α) : Option String :=
  w.etag

/-- The ten monomorphized wrapper types generated at
src/src/lib.rs:331-340, one constructor per generated struct. -/
inductive MonomorphBlock where
  | VecDataBlockUINT8 (w : WrappedBlock (scalar .u8))
  | VecDataBlockUINT16 (w : WrappedBlock (scalar .u16))
  | VecDataBlockUINT32 (w : WrappedBlock (scalar .u32))
  | VecDataBlockUINT64 (w : WrappedBlock (scalar .u64))
  | VecDataBlockINT8 (w : WrappedBlock (scalar .i8))
  | VecDataBlockINT16 (w : WrappedBlock (scalar .i16))
  | VecDataBlockINT32 (w : WrappedBlock (scalar .i32))
  | VecDataBlockINT64 (w : WrappedBlock (scalar .i64))
  | VecDataBlockFLOAT32 (w : WrappedBlock (scalar .f32))
  | VecDataBlockFLOAT64 (w : WrappedBlock (scalar .f64))

/-- The VecBlockMonomorphizerReflection mapping (src/src/lib.rs:277-288):
each element kind names exactly one monomorphized wrapper type. -/
def monomorph : (k : ElementKind) → WrappedBlock (scalar k) → MonomorphBlock
  | .u8, w => .VecDataBlockUINT8 w
  | .u16, w => .VecDataBlockUINT16 w
  | .u32, w => .VecDataBlockUINT32 w
  | .u64, w => .VecDataBlockUINT64 w
  | .i8, w => .VecDataBlockINT8 w
  | .i16, w => .VecDataBlockINT16 w
  | .i32, w => .VecDataBlockINT32 w
  | .i64, w => .VecDataBlockINT64 w
  | .f32, w => .VecDataBlockFLOAT32 w
  | .f64, w => .VecDataBlockFLOAT64 w

/-- The element kind a monomorphized wrapper was generated for. -/
def wrapperKind : MonomorphBlock → ElementKind
  | .VecDataBlockUINT8 _ => .u8
  | .VecDataBlockUINT16 _ => .u16
  | .VecDataBlockUINT32 _ => .u32
  | .VecDataBlockUINT64 _ => .u64
  | .VecDataBlockINT8 _ => .i8
  | .VecDataBlockINT16 _ => .i16
  | .VecDataBlockINT32 _ => .i32
  | .VecDataBlockINT64 _ => .i64
  | .VecDataBlockFLOAT32 _ => .f32
  | .VecDataBlockFLOAT64 _ => .f64

/-- The host's dynamic value representation reachable from this bridge:
null, booleans, numbers (modelled as integers), strings, arrays and plain
objects. -/
inductive JsVal where
  | null
  | bool (b : Bool)
  | num (n : Int)
  | str (s : String)
  | arr (xs : List JsVal)
  | obj (fs : List (String × JsVal))

/-- A value delivered to the host: either a dynamic value or one of the
monomorphized wrapper handles. -/
inductive HostValue where
  | js (v : JsVal)
  | handle (w : MonomorphBlock)

/-- The settled state of a promise returned to the host. -/
inductive Settle where
  | resolve (v : HostValue)
  | reject (msg : String)

/-- The observable outcome of a facade operation that may also abort
abnormally (a Rust unwrap on a failed marshaling step). -/
inductive Outcome where
  | settled (s : Settle)
  | aborted (msg : String)

/-- JsValue::from applied to an Option of a monomorphized wrapper
(src/src/lib.rs:95-96): absence becomes the host null, presence a handle. -/
def jsFromMaybeBlock : Option MonomorphBlock → HostValue
  | none => .js .null
  | some w => .handle w

/-- Modelled from the spec: serde_json::Value, the free-form structured
attribute listing returned by the generic reader (numbers modelled as
integers; floating-point payloads are out of scope). -/
inductive Json where
  | null
  | bool (b : Bool)
  | num (n : Int)
  | str (s : String)
  | arr (xs : List Json)
  | obj (fs : List (String × Json))

/-- The largest integer magnitude the host number type holds exactly. -/
def safeIntBound : Int := 2 ^ 53

mutual

/-- Modelled from the spec: the generic structured-value conversion used by
list_attributes (serde_wasm_bindgen::to_value at src/src/lib.rs:108): lossless
on every value the host representation can express, and an explicit
MarshalingFailure on any other (an integer outside the exact host number
range), never a silent truncation. -/
def toHostValue : Json → Except String JsVal
  | .null => .ok .null
  | .bool b => .ok (.bool b)
  | .num n =>
    if -safeIntBound ≤ n ∧ n ≤ safeIntBound then .ok (.num n)
    else .error "number outside the safe host integer range"
  | .str s => .ok (.str s)
  | .arr xs =>
    match toHostArr xs with
    | .ok vs => .ok (.arr vs)
    | .error e => .error e
  | .obj fs =>
    match toHostObj fs with
    | .ok gs => .ok (.obj gs)
    | .error e => .error e

/-- Elementwise structured-value conversion of an array. -/
def toHostArr : List Json → Except String (List JsVal)
  | [] => .ok []
  | x :: xs =>
    match toHostValue x, toHostArr xs with
    | .ok v, .ok vs => .ok (v :: vs)
    | .error e, _ => .error e
    | .ok _, .error e => .error e

/-- Fieldwise structured-value conversion of an object. -/
def toHostObj : List (String × Json) → Except String (List (String × JsVal))
  | [] => .ok []
  | (key, x) :: fs =>
    match toHostValue x, toHostObj fs with
    | .ok v, .ok gs => .ok ((key, v) :: gs)
    | .error e, _ => .error e
    | .ok _, .error e => .error e

end

mutual

/-- The inverse reading of a host value back as structured data, used to state
losslessness of the conversion. -/
def fromHostValue : JsVal → Json
  | .null => .null
  | .bool b => .bool b
  | .num n => .num n
  | .str s => .str s
  | .arr vs => .arr (fromHostArr vs)
  | .obj gs => .obj (fromHostObj gs)

/-- Elementwise inverse reading of a host array. -/
def fromHostArr : List JsVal → List Json
  | [] => []
  | v :: vs => fromHostValue v :: fromHostArr vs

/-- Fieldwise inverse reading of a host object. -/
def fromHostObj : List (String × JsVal) → List (String × Json)
  | [] => []
  | (key, v) :: gs => (key, fromHostValue v) :: fromHostObj gs

end

/-- Modelled from the spec: ngpre's DatasetAttributes (the external storage
library's metadata value) - dimensions, block size and voxel offset per zoom
level, a compression identifier per zoom level, and the element-type tag. -/
structure DatasetAttributes where
  dimensions : List (List Nat)
  block_size : List (List Nat)
  voxel_offset : List (List Int)
  compression : List String
  data_type : String
  deriving Repr, DecidableEq

/-- Accessor get_dimensions (src/src/lib.rs:233), totalized over the zoom
level index. -/
def DatasetAttributes.get_dimensions (a : DatasetAttributes) (zoom_level : Nat) :
    Option (List Nat) :=
  a.dimensions[zoom_level]?

/-- Accessor get_block_size (src/src/lib.rs:237), totalized over the zoom
level index. -/
def DatasetAttributes.get_block_size (a : DatasetAttributes) (zoom_level : Nat) :
    Option (List Nat) :=
  a.block_size[zoom_level]?

/-- Accessor get_voxel_offset (src/src/lib.rs:241), totalized over the zoom
level index. -/
def DatasetAttributes.get_voxel_offset (a : DatasetAttributes) (zoom_level : Nat) :
    Option (List Int) :=
  a.voxel_offset[zoom_level]?

/-- Accessor get_compression (src/src/lib.rs:249), totalized over the zoom
level index. -/
def DatasetAttributes.get_compression (a : DatasetAttributes) (zoom_level : Nat) :
    Option String :=
  a.compression[zoom_level]?

/-- Accessor get_data_type (src/src/lib.rs:245). -/
def DatasetAttributes.get_data_type (a : DatasetAttributes) : String :=
  a.data_type

/-- Reading of a host number as an unsigned field value. -/
def decNat : JsVal → Option Nat
  | .num n => if 0 ≤ n then some n.toNat else none
  | _ => none

/-- Reading of a host number as a signed field value. -/
def decInt : JsVal → Option Int
  | .num n => some n
  | _ => none

/-- Reading of a host string. -/
def decStr : JsVal → Option String
  | .str s => some s
  | _ => none

/-- Encoding of an unsigned vector field as a host array. -/
def encNatList (xs : List Nat) : JsVal :=
  .arr (xs.map (fun n : Nat => JsVal.num n))

/-- Encoding of a signed vector field as a host array. -/
def encIntList (xs : List Int) : JsVal :=
  .arr (xs.map (fun n => .num n))

/-- Encoding of a string vector field as a host array. -/
def encStrList (xs : List String) : JsVal :=
  .arr (xs.map (fun s => .str s))

/-- Elementwise reading of a list of host values, failing as soon as one
element fails. -/
def decodeEach (g : JsVal → Option α) : List JsVal → Option (List α)
  | [] => some []
  | v :: vs =>
    match g v, decodeEach g vs with
    | some x, some xs => some (x :: xs)
    | _, _ => none

/-- Reading of a host array elementwise. -/
def decArr (g : JsVal → Option α) : JsVal → Option (List α)
  | .arr vs => decodeEach g vs
  | _ => none

/-- Reading of a host array of unsigned vectors. -/
def decNatLists (v : JsVal) : Option (List (List Nat)) :=
  decArr (decArr decNat) v

/-- Reading of a host array of signed vectors. -/
def decIntLists (v : JsVal) : Option (List (List Int)) :=
  decArr (decArr decInt) v

/-- Modelled from the spec: the structured-value export of DatasetAttributes
(to_json at src/src/lib.rs:267-269, through the serde derive of the external
ngpre metadata struct): every declared field, per zoom level, in a fixed
field order. -/
def DatasetAttributes.to_json (a : DatasetAttributes) : JsVal :=
  .obj [("dimensions", .arr (a.dimensions.map encNatList)),
        ("block_size", .arr (a.block_size.map encNatList)),
        ("voxel_offset", .arr (a.voxel_offset.map encIntList)),
        ("compression", encStrList a.compression),
        ("data_type", .str a.data_type)]

/-- Modelled from the spec: the structured-value import of DatasetAttributes
(from_json at src/src/lib.rs:271-273), the fallible inverse of the export. -/
def DatasetAttributes.from_json : JsVal → Option DatasetAttributes
  | .obj [("dimensions", d), ("block_size", bs), ("voxel_offset", vo),
          ("compression", c), ("data_type", .str t)] =>
    match decNatLists d, decNatLists bs, decIntLists vo, decArr decStr c with
    | some dims, some blks, some offs, some comps =>
      some ⟨dims, blks, offs, comps, t⟩
    | _, _, _, _ => none
  | _ => none

/-- The failure conditions raised by the bridge before a read proceeds. -/
inductive BridgeError where
  | unsupportedElementType (tag : String)
  deriving Repr, DecidableEq

/-- The generic async reader capability (trait NgPreAsyncReader,
src/src/lib.rs:168-193).  Each async operation is modelled by its settled
result; get_dataset_attributes is modelled as Except because the attribute
lookup future either completes with the attributes or fails. -/
structure NgPreAsyncReader where
  get_dataset_attributes : String → Except String DatasetAttributes
  read_block : String → DatasetAttributes → List Int →
    (k : ElementKind) → Option (VecDataBlock (scalar k))
  list_attributes : String → Json

/-- The defaulted NgPreAsyncReader::dataset_exists (src/src/lib.rs:176-179):
the attribute-lookup future mapped to true, then mapped again through the
self-conjunction of the boolean. -/
def NgPreAsyncReader.dataset_exists (r : NgPreAsyncReader) (path_name : String) :
    Except String Bool :=
  ((r.get_dataset_attributes path_name).map (fun _ => true)).map (fun x => x && x)

/-- The optional etag-aware reader capability (trait NgPreAsyncEtagReader,
src/src/lib.rs:196-212). -/
structure NgPreAsyncEtagReader where
  block_etag : String → DatasetAttributes → List Int → Option String
  read_block_with_etag : String → DatasetAttributes → List Int →
    (k : ElementKind) → Option (VecDataBlock (scalar k) × Option String)

/-- The facade NgPrePromiseReader::read_block (src/src/lib.rs:85-98): resolve
the data-type tag through the element type registry, run the generic read
monomorphized at the resolved kind, and wrap the optional result for the
host.  The data_type_match dispatch itself lives in the external ngpre crate
and is modelled from the spec: an unrecognized tag fails with
UnsupportedElementType before any byte-level read. -/
def NgPrePromiseReader.read_block (r : NgPreAsyncReader) (path_name : String)
    (data_attrs : DatasetAttributes) (grid_position : List Int) :
    Except BridgeError Settle :=
  match parseDataType data_attrs.get_data_type with
  | some k =>
    .ok (.resolve (jsFromMaybeBlock
      ((r.read_block path_name data_attrs grid_position k).map
        (fun b => monomorph k (WrappedBlock.fromBlock b)))))
  | none => .error (.unsupportedElementType data_attrs.get_data_type)

/-- The facade NgPrePromiseReader::list_attributes (src/src/lib.rs:100-113):
the free-form attribute listing pushed through the generic structured-value
conversion; the source unwraps the conversion, so a conversion failure aborts
abnormally instead of settling. -/
def NgPrePromiseReader.list_attributes (r : NgPreAsyncReader) (path_name : String) :
    Outcome :=
  match toHostValue (r.list_attributes path_name) with
  | .ok v => .settled (.resolve (.js v))
  | .error e => .aborted e

/-- The facade NgPrePromiseEtagReader::block_etag (src/src/lib.rs:134-146):
resolves with the collaborator's tag, defaulted to the empty string when the
tag is absent. -/
def NgPrePromiseEtagReader.block_etag (er : NgPreAsyncEtagReader) (path_name : String)
    (data_attrs : DatasetAttributes) (grid_position : List Int) : Settle :=
  .resolve (.js (.str ((er.block_etag path_name data_attrs grid_position).getD "")))

/-- The facade NgPrePromiseEtagReader::read_block_with_etag
(src/src/lib.rs:148-161): same dispatch as read_block, but through the
etag-aware generic read and the pair conversion of the wrapper. -/
def NgPrePromiseEtagReader.read_block_with_etag (er : NgPreAsyncEtagReader)
    (path_name : String) (data_attrs : DatasetAttributes) (grid_position : List Int) :
    Except BridgeError Settle :=
  match parseDataType data_attrs.get_data_type with
  | some k =>
    .ok (.resolve (jsFromMaybeBlock
      ((er.read_block_with_etag path_name data_attrs grid_position k).map
        (fun p => monomorph k (WrappedBlock.fromPair p)))))
  | none => .error (.unsupportedElementType data_attrs.get_data_type)

/-- Modelled from the spec: the host-side handle lifecycle of a wrapped block.
into_data takes the wrapper by value (src/src/lib.rs:316), so the handle is
consumed; the generated host glue is not under src, and per the spec a
consumed handle fails explicitly on any further access. -/
structure Handle (α : Type) where
  state : Option (WrappedBlock α)

/-- A live handle holding a wrapper. -/
def Handle.live (w : WrappedBlock α) : Handle α :=
  ⟨some w⟩

/-- The handle left behind once its wrapper has been consumed. -/
def Handle.consumed : Handle α :=
  ⟨none⟩

/-- Handle access to get_data: a copy of the payload, failing explicitly on a
consumed handle. -/
def Handle.get_data (h : Handle α) : Option (List α) :=
  h.state.map WrappedBlock.get_data

/-- Handle access to get_size, failing explicitly on a consumed handle. -/
def Handle.get_size (h : Handle α) : Option (List Nat) :=
  h.state.map WrappedBlock.get_size

/-- Handle access to get_grid_position, failing explicitly on a consumed
handle. -/
def Handle.get_grid_position (h : Handle α) : Option (List Nat) :=
  h.state.map WrappedBlock.get_grid_position

/-- Handle access to get_etag, failing explicitly on a consumed handle. -/
def Handle.get_etag (h : Handle α) : Option (Option String) :=
  h.state.map WrappedBlock.get_etag

/-- Handle access to into_data: moves the payload out and leaves the handle
consumed; on an already consumed handle it fails explicitly. -/
def Handle.into_data (h : Handle α) : Option (List α) × Handle α :=
  match h.state with
  | some w => (some w.into_data, Handle.consumed)
  | none => (none, Handle.consumed)

/-- Modelled from the spec: the host boundary conversion of one grid axis
into a signed 64-bit lane of the grid_position argument
(grid_position: Vec of i64, src/src/lib.rs:89): the host's
arbitrary-precision integer is reduced into the i64 value range. -/
def toI64 (n : Int) : Int :=
  (n + 2 ^ 63) % 2 ^ 64 - 2 ^ 63

/-- Modelled from the spec: the per-axis boundary conversion of a whole grid
position supplied by the host. -/
def gridFromHost (v : List Int) : List Int :=
  v.map toI64

/-- A concrete uint8 block with block shape 2 by 2 used to instantiate the
theorems on closed inputs. -/
def sampleBlockU8 : VecDataBlock (scalar .u8) :=
  ⟨[2, 2], [0, 0], ([1, 2, 3, 4] : List Nat)⟩

/-- A concrete wrapper over the sample block. -/
def sampleWrapped : WrappedBlock (scalar .u8) :=
  WrappedBlock.fromBlock sampleBlockU8

/-- Concrete attributes whose data-type tag names the uint8 kind. -/
def sampleAttrs : DatasetAttributes :=
  ⟨[[4, 4]], [[2, 2]], [[0, 0]], ["raw"], "uint8"⟩

/-- Concrete attributes whose data-type tag names none of the ten kinds. -/
def badAttrs : DatasetAttributes :=
  ⟨[[4, 4]], [[2, 2]], [[0, 0]], ["raw"], "complex64"⟩

/-- A concrete reader holding the sample block at the uint8 kind. -/
def sampleReader : NgPreAsyncReader :=
  ⟨fun _ => .ok sampleAttrs,
   fun _ _ _ k =>
     match k with
     | .u8 => some sampleBlockU8
     | _ => none,
   fun _ => .obj [("a", .num 1)]⟩

/-- A concrete reader with no block at any grid position. -/
def noneReader : NgPreAsyncReader :=
  ⟨fun _ => .ok sampleAttrs, fun _ _ _ _ => none, fun _ => .null⟩

/-- A concrete reader whose attribute lookup future fails. -/
def failingReader : NgPreAsyncReader :=
  ⟨fun _ => .error "attributes not found", fun _ _ _ _ => none, fun _ => .null⟩

/-- A concrete reader whose attribute listing holds an integer the host
number type cannot express exactly. -/
def bigReader : NgPreAsyncReader :=
  ⟨fun _ => .ok sampleAttrs, fun _ _ _ _ => none, fun _ => .num (2 ^ 60)⟩

/-- A concrete etag-capable reader whose storage reports a tag. -/
def sampleEtagReader : NgPreAsyncEtagReader :=
  ⟨fun _ _ _ => some "abc",
   fun _ _ _ k =>
     match k with
     | .u8 => some (sampleBlockU8, some "abc")
     | _ => none⟩

/-- A concrete etag-capable reader whose storage reports no tag. -/
def noEtagReader : NgPreAsyncEtagReader :=
  ⟨fun _ _ _ => none, fun _ _ _ _ => none⟩

/-- Each of the ten tags resolves in the registry to its own kind. -/
theorem parse_dataTypeTag (k : ElementKind) : parseDataType (dataTypeTag k) = some k := by
  cases k <;> rfl

/-- The reflection mapping sends each kind to a wrapper of that same kind. -/
theorem wrapperKind_monomorph (k : ElementKind) (w : WrappedBlock (scalar k)) :
    wrapperKind (monomorph k w) = k := by
  cases k <;> rfl

/-- Elementwise decoding inverts elementwise encoding over a list. -/
theorem decodeEach_map_round {α : Type} (f : α → JsVal) (g : JsVal → Option α)
    (hr : ∀ x, g (f x) = some x) (xs : List α) :
    decodeEach g (xs.map f) = some xs := by
  induction xs with
  | nil => rfl
  | cons x xs ih => simp [decodeEach, hr, ih]

/-- Decoding a host number as an unsigned field value inverts its encoding. -/
theorem decNat_round (n : Nat) : decNat (JsVal.num n) = some n := by
  simp [decNat]

/-- Unsigned vector fields round-trip. -/
theorem decArr_encNatList (xs : List Nat) : decArr decNat (encNatList xs) = some xs := by
  unfold encNatList decArr
  exact decodeEach_map_round (fun n : Nat => JsVal.num n) decNat decNat_round xs

/-- Signed vector fields round-trip. -/
theorem decArr_encIntList (xs : List Int) : decArr decInt (encIntList xs) = some xs := by
  unfold encIntList decArr
  exact decodeEach_map_round (fun n : Int => JsVal.num n) decInt (fun _ => rfl) xs

/-- String vector fields round-trip. -/
theorem decArr_encStrList (xs : List String) : decArr decStr (encStrList xs) = some xs := by
  unfold encStrList decArr
  exact decodeEach_map_round (fun s : String => JsVal.str s) decStr (fun _ => rfl) xs

/-- Per-zoom unsigned vector fields round-trip. -/
theorem decNatLists_round (xs : List (List Nat)) :
    decNatLists (.arr (xs.map encNatList)) = some xs := by
  unfold decNatLists decArr
  exact decodeEach_map_round encNatList (decArr decNat) decArr_encNatList xs

/-- Per-zoom signed vector fields round-trip. -/
theorem decIntLists_round (xs : List (List Int)) :
    decIntLists (.arr (xs.map encIntList)) = some xs := by
  unfold decIntLists decArr
  exact decodeEach_map_round encIntList (decArr decInt) decArr_encIntList xs

/-- A grid axis value inside the signed 64-bit range crosses the host
boundary unchanged. -/
theorem toI64_eq_self (x : Int) (h1 : -(2 ^ 63) ≤ x) (h2 : x < 2 ^ 63) :
    toI64 x = x := by
  unfold toI64
  have hb : (0 : Int) ≤ x + 2 ^ 63 := by norm_num at h1 ⊢; omega
  have hc : x + 2 ^ 63 < 2 ^ 64 := by norm_num at h2 ⊢; omega
  rw [Int.emod_eq_of_lt hb hc]
  ring

mutual

/-- Whenever the structured-value conversion succeeds, reading the host value
back recovers the original value exactly. -/
theorem fromHost_toHost : ∀ (j : Json) (v : JsVal), toHostValue j = .ok v → fromHostValue v = j
  | .null, v, h => by
    simp only [toHostValue] at h
    injection h with h
    subst h
    simp [fromHostValue]
  | .bool b, v, h => by
    simp only [toHostValue] at h
    injection h with h
    subst h
    simp [fromHostValue]
  | .num n, v, h => by
    simp only [toHostValue] at h
    split at h
    · injection h with h
      subst h
      simp [fromHostValue]
    · exact Except.noConfusion h
  | .str s, v, h => by
    simp only [toHostValue] at h
    injection h with h
    subst h
    simp [fromHostValue]
  | .arr xs, v, h => by
    simp only [toHostValue] at h
    cases ha : toHostArr xs with
    | ok vs =>
      simp only [ha] at h
      injection h with h
      subst h
      simp [fromHostValue, fromHost_toHostArr xs vs ha]
    | error e =>
      simp only [ha] at h
      exact Except.noConfusion h
  | .obj fs, v, h => by
    simp only [toHostValue] at h
    cases ho : toHostObj fs with
    | ok gs =>
      simp only [ho] at h
      injection h with h
      subst h
      simp [fromHostValue, fromHost_toHostObj fs gs ho]
    | error e =>
      simp only [ho] at h
      exact Except.noConfusion h

/-- Array part of the losslessness of the structured-value conversion. -/
theorem fromHost_toHostArr : ∀ (xs : List Json) (vs : List JsVal),
    toHostArr xs = .ok vs → fromHostArr vs = xs
  | [], vs, h => by
    simp only [toHostArr] at h
    injection h with h
    subst h
    simp [fromHostArr]
  | x :: xs, vs, h => by
    simp only [toHostArr] at h
    cases hx : toHostValue x with
    | error e =>
      simp only [hx] at h
      exact Except.noConfusion h
    | ok v =>
      cases ha : toHostArr xs with
      | error e =>
        simp only [hx, ha] at h
        exact Except.noConfusion h
      | ok vs2 =>
        simp only [hx, ha] at h
        injection h with h
        subst h
        simp [fromHostArr, fromHost_toHost x v hx, fromHost_toHostArr xs vs2 ha]

/-- Object part of the losslessness of the structured-value conversion. -/
theorem fromHost_toHostObj : ∀ (fs : List (String × Json)) (gs : List (String × JsVal)),
    toHostObj fs = .ok gs → fromHostObj gs = fs
  | [], gs, h => by
    simp only [toHostObj] at h
    injection h with h
    subst h
    simp [fromHostObj]
  | (key, x) :: fs, gs, h => by
    simp only [toHostObj] at h
    cases hx : toHostValue x with
    | error e =>
      simp only [hx] at h
      exact Except.noConfusion h
    | ok v =>
      cases ho : toHostObj fs with
      | error e =>
        simp only [hx, ho] at h
        exact Except.noConfusion h
      | ok gs2 =>
        simp only [hx, ho] at h
        injection h with h
        subst h
        simp [fromHostObj, fromHost_toHost x v hx, fromHost_toHostObj fs gs2 ho]

end

/-- C1: for each of the ten element kinds, read_block and read_block_with_etag
on attributes whose data-type tag names that kind dispatch to exactly the
wrapper type monomorphized for that kind and no other; on attributes whose
tag names none of the ten kinds both operations fail with
UnsupportedElementType, independently of the underlying reader, so before any
byte-level read. -/
theorem claim_C1_element_dispatch (r : NgPreAsyncReader) (er : NgPreAsyncEtagReader)
    (path : String) (a : DatasetAttributes) (pos : List Int) :
    (∀ k : ElementKind, a.data_type = dataTypeTag k →
      NgPrePromiseReader.read_block r path a pos =
        .ok (.resolve (jsFromMaybeBlock ((r.read_block path a pos k).map
          (fun b => monomorph k (WrappedBlock.fromBlock b)))))
      ∧ NgPrePromiseEtagReader.read_block_with_etag er path a pos =
        .ok (.resolve (jsFromMaybeBlock ((er.read_block_with_etag path a pos k).map
          (fun p => monomorph k (WrappedBlock.fromPair p)))))
      ∧ ∀ w : MonomorphBlock,
          jsFromMaybeBlock ((r.read_block path a pos k).map
            (fun b => monomorph k (WrappedBlock.fromBlock b))) = .handle w →
          wrapperKind w = k)
    ∧ (parseDataType a.data_type = none →
      NgPrePromiseReader.read_block r path a pos =
        .error (.unsupportedElementType a.data_type)
      ∧ NgPrePromiseEtagReader.read_block_with_etag er path a pos =
        .error (.unsupportedElementType a.data_type)
      ∧ ∀ (r2 : NgPreAsyncReader) (er2 : NgPreAsyncEtagReader),
          NgPrePromiseReader.read_block r2 path a pos =
            NgPrePromiseReader.read_block r path a pos
          ∧ NgPrePromiseEtagReader.read_block_with_etag er2 path a pos =
            NgPrePromiseEtagReader.read_block_with_etag er path a pos) := by
  constructor
  · intro k hk
    refine ⟨?_, ?_, ?_⟩
    · simp [NgPrePromiseReader.read_block, DatasetAttributes.get_data_type, hk,
        parse_dataTypeTag]
    · simp [NgPrePromiseEtagReader.read_block_with_etag, DatasetAttributes.get_data_type,
        hk, parse_dataTypeTag]
    · intro w hw
      cases hr : r.read_block path a pos k with
      | none =>
        rw [hr] at hw
        simp [jsFromMaybeBlock] at hw
      | some b =>
        rw [hr] at hw
        simp only [Option.map_some', jsFromMaybeBlock, HostValue.handle.injEq] at hw
        subst hw
        exact wrapperKind_monomorph k _
  · intro hnone
    refine ⟨?_, ?_, ?_⟩
    · simp [NgPrePromiseReader.read_block, DatasetAttributes.get_data_type, hnone]
    · simp [NgPrePromiseEtagReader.read_block_with_etag, DatasetAttributes.get_data_type,
        hnone]
    · intro r2 er2
      constructor <;>
        simp [NgPrePromiseReader.read_block, NgPrePromiseEtagReader.read_block_with_etag,
          DatasetAttributes.get_data_type, hnone]

/-- C1 witness: the dispatch theorem applied on a concrete reader at the
uint8 tag and at an unrecognized tag. -/
theorem claim_C1_element_dispatch_witness :
    NgPrePromiseReader.read_block sampleReader "p" sampleAttrs [0] =
      .ok (.resolve (.handle (.VecDataBlockUINT8 (WrappedBlock.fromBlock sampleBlockU8))))
    ∧ NgPrePromiseEtagReader.read_block_with_etag sampleEtagReader "p" sampleAttrs [0] =
      .ok (.resolve (.handle (.VecDataBlockUINT8
        (WrappedBlock.fromPair (sampleBlockU8, some "abc")))))
    ∧ NgPrePromiseReader.read_block sampleReader "p" badAttrs [0] =
      .error (.unsupportedElementType "complex64") := by
  refine ⟨?_, ?_, ?_⟩
  · have h :=
      ((claim_C1_element_dispatch sampleReader sampleEtagReader "p" sampleAttrs [0]).1
        .u8 rfl).1
    rw [h]
    rfl
  · have h :=
      ((claim_C1_element_dispatch sampleReader sampleEtagReader "p" sampleAttrs [0]).1
        .u8 rfl).2.1
    rw [h]
    rfl
  · exact ((claim_C1_element_dispatch sampleReader sampleEtagReader "p" badAttrs [0]).2
      rfl).1

/-- C2: whenever the underlying async reader finds no block at the grid
position, the facade read_block settles by resolving with the host null,
never by rejecting. -/
theorem claim_C2_absent_resolves_null (r : NgPreAsyncReader) (path : String)
    (a : DatasetAttributes) (pos : List Int) (k : ElementKind)
    (htag : a.data_type = dataTypeTag k)
    (habsent : r.read_block path a pos k = none) :
    NgPrePromiseReader.read_block r path a pos = .ok (.resolve (.js .null)) := by
  simp [NgPrePromiseReader.read_block, DatasetAttributes.get_data_type, htag,
    parse_dataTypeTag, habsent, jsFromMaybeBlock]

/-- C2 witness: a concrete reader with no block at any position resolves with
the host null. -/
theorem claim_C2_absent_resolves_null_witness :
    noneReader.read_block "p" sampleAttrs [0] ElementKind.u8 = none
    ∧ NgPrePromiseReader.read_block noneReader "p" sampleAttrs [0] =
      .ok (.resolve (.js .null)) :=
  ⟨rfl, claim_C2_absent_resolves_null noneReader "p" sampleAttrs [0] .u8 rfl rfl⟩

/-- C3: the defaulted dataset_exists maps a successful attribute lookup to
true, but when the attribute lookup future fails it propagates the fault and
never yields the false the claim requires (the source marks this defaulted
implementation with a FIX ME). -/
theorem claim_C3_dataset_exists_fault :
    NgPreAsyncReader.dataset_exists sampleReader "present" = .ok true
    ∧ NgPreAsyncReader.dataset_exists failingReader "missing" =
      .error "attributes not found"
    ∧ NgPreAsyncReader.dataset_exists failingReader "missing" ≠ .ok false := by
  refine ⟨rfl, rfl, ?_⟩
  intro h
  exact Except.noConfusion h

/-- C4: exporting any DatasetAttributes with to_json and importing the result
with from_json recovers the original value exactly, so every declared field
(dimensions, block size, voxel offset, compression, element-type tag) is
preserved at every supported zoom level. -/
theorem claim_C4_attrs_roundtrip (a : DatasetAttributes) :
    DatasetAttributes.from_json (DatasetAttributes.to_json a) = some a := by
  simp [DatasetAttributes.to_json, DatasetAttributes.from_json,
    decNatLists_round, decIntLists_round, decArr_encStrList]

/-- C5: for a wrapper of any element kind, get_data yields a copy of the
payload with the handle still usable, into_data transfers the payload and
leaves the handle consumed, and every access to the consumed handle fails
explicitly instead of silently doing nothing. -/
theorem claim_C5_ownership_transfer (k : ElementKind) (w : WrappedBlock (scalar k)) :
    (Handle.live w).get_data = some w.get_data
    ∧ w.get_data = w.block.data
    ∧ (Handle.live w).into_data = (some w.into_data, Handle.consumed)
    ∧ (Handle.consumed : Handle (scalar k)).get_data = none
    ∧ (Handle.consumed : Handle (scalar k)).get_size = none
    ∧ (Handle.consumed : Handle (scalar k)).get_grid_position = none
    ∧ (Handle.consumed : Handle (scalar k)).get_etag = none
    ∧ ((Handle.consumed : Handle (scalar k)).into_data).1 = none :=
  ⟨rfl, rfl, rfl, rfl, rfl, rfl, rfl, rfl⟩

/-- C6: block_etag always resolves with a string - the collaborator's tag if
one is present, the empty string if the collaborator reports none. -/
theorem claim_C6_block_etag_string (er : NgPreAsyncEtagReader) (path : String)
    (a : DatasetAttributes) (pos : List Int) :
    (∀ t : String, er.block_etag path a pos = some t →
      NgPrePromiseEtagReader.block_etag er path a pos = .resolve (.js (.str t)))
    ∧ (er.block_etag path a pos = none →
      NgPrePromiseEtagReader.block_etag er path a pos = .resolve (.js (.str ""))) := by
  constructor
  · intro t ht
    simp [NgPrePromiseEtagReader.block_etag, ht]
  · intro hn
    simp [NgPrePromiseEtagReader.block_etag, hn]

/-- C6 witness: a concrete tag-bearing reader and a concrete tagless reader. -/
theorem claim_C6_block_etag_string_witness :
    NgPrePromiseEtagReader.block_etag sampleEtagReader "p" sampleAttrs [0] =
      .resolve (.js (.str "abc"))
    ∧ NgPrePromiseEtagReader.block_etag noEtagReader "p" sampleAttrs [0] =
      .resolve (.js (.str "")) :=
  ⟨(claim_C6_block_etag_string sampleEtagReader "p" sampleAttrs [0]).1 "abc" rfl,
   (claim_C6_block_etag_string noEtagReader "p" sampleAttrs [0]).2 rfl⟩

/-- C7: for every element kind, the plain-block conversion used by read_block
leaves the version tag absent, and the pair conversion used by
read_block_with_etag stores exactly the optional tag of the pair, as
get_etag reports. -/
theorem claim_C7_etag_construction (k : ElementKind) (b : VecDataBlock (scalar k))
    (e : Option String) :
    (WrappedBlock.fromBlock b).get_etag = none
    ∧ (WrappedBlock.fromPair (b, e)).get_etag = e :=
  ⟨rfl, rfl⟩

/-- C8: the structured-value conversion performed by the facade
list_attributes is lossless - whenever it settles with a host value, reading
that value back recovers the reader's listing exactly - and on a value the
host representation cannot express the operation fails explicitly (the
unwrap aborts with the conversion's error) rather than silently truncating. -/
theorem claim_C8_marshal_lossless (r : NgPreAsyncReader) (path : String) :
    (∀ v : JsVal,
      NgPrePromiseReader.list_attributes r path = .settled (.resolve (.js v)) →
      fromHostValue v = r.list_attributes path)
    ∧ (∀ e : String, toHostValue (r.list_attributes path) = .error e →
      NgPrePromiseReader.list_attributes r path = .aborted e) := by
  constructor
  · intro v hv
    cases hc : toHostValue (r.list_attributes path) with
    | ok v2 =>
      simp only [NgPrePromiseReader.list_attributes, hc] at hv
      injection hv with hv
      injection hv with hv
      injection hv with hv
      subst hv
      exact fromHost_toHost _ _ hc
    | error e =>
      simp only [NgPrePromiseReader.list_attributes, hc] at hv
      exact Outcome.noConfusion hv
  · intro e he
    simp [NgPrePromiseReader.list_attributes, he]

/-- C8 witness: a concrete representable listing settles and reads back
exactly, and a concrete listing holding an integer beyond the exact host
number range aborts with the explicit marshaling error. -/
theorem claim_C8_marshal_lossless_witness :
    NgPrePromiseReader.list_attributes sampleReader "p" =
      .settled (.resolve (.js (.obj [("a", .num 1)])))
    ∧ fromHostValue (.obj [("a", .num 1)]) = sampleReader.list_attributes "p"
    ∧ NgPrePromiseReader.list_attributes bigReader "p" =
      .aborted "number outside the safe host integer range" := by
  have h1 : NgPrePromiseReader.list_attributes sampleReader "p" =
      .settled (.resolve (.js (.obj [("a", .num 1)]))) := by
    norm_num [NgPrePromiseReader.list_attributes, sampleReader, toHostValue,
      toHostObj, safeIntBound]
  have h2 : toHostValue (bigReader.list_attributes "p") =
      .error "number outside the safe host integer range" := by
    norm_num [bigReader, toHostValue, safeIntBound]
  exact ⟨h1, (claim_C8_marshal_lossless sampleReader "p").1 _ h1,
    (claim_C8_marshal_lossless bigReader "p").2 _ h2⟩

/-- C9 counterexample: a host-formable axis value outside the signed 64-bit
range does not cross the grid-position boundary unchanged, refuting the
arbitrary-precision no-truncation reading of the claim. -/
theorem claim_C9_counterexample : gridFromHost [(2 : Int) ^ 63] ≠ [(2 : Int) ^ 63] := by
  intro h
  simp only [gridFromHost, List.map_cons, List.map_nil, List.cons.injEq, and_true] at h
  norm_num [toI64] at h

/-- C9 (amended): the grid position consumed by the block-read operations is
a signed 64-bit-per-axis vector; every vector whose axis values lie inside
the i64 range is accepted unchanged, without truncation of any axis value. -/
theorem claim_C9_i64_identity : ∀ v : List Int,
    (∀ x ∈ v, -(2 ^ 63) ≤ x ∧ x < 2 ^ 63) → gridFromHost v = v := by
  intro v
  induction v with
  | nil => intro _; rfl
  | cons x xs ih =>
    intro h
    have hx := h x (List.mem_cons_self x xs)
    have hrest := ih (fun y hy => h y (List.mem_cons_of_mem x hy))
    simp only [gridFromHost, List.map_cons] at hrest ⊢
    rw [toI64_eq_self x hx.1 hx.2]
    rw [show List.map toI64 xs = xs from hrest]

/-- C9 witness: a concrete in-range grid position crosses the boundary
unchanged. -/
theorem claim_C9_i64_identity_witness :
    gridFromHost [0, -(2 : Int) ^ 62, 5] = [0, -(2 : Int) ^ 62, 5] :=
  claim_C9_i64_identity [0, -(2 : Int) ^ 62, 5] (by norm_num)

/-- C10: the grid position a wrapper of any element kind exposes through
get_grid_position is a vector of unsigned 64-bit values, so each exposed axis
is non-negative, even though the block-read operations accept signed per-axis
coordinates. -/
theorem claim_C10_grid_position_unsigned (k : ElementKind)
    (w : WrappedBlock (scalar k)) :
    ∀ axis ∈ w.get_grid_position, (0 : Int) ≤ (axis : Int) := by
  intro axis _
  exact Int.natCast_nonneg axis

/-- C10 witness: the accessor applied on the concrete sample wrapper. -/
theorem claim_C10_grid_position_unsigned_witness :
    (0 : Nat) ∈ sampleWrapped.get_grid_position ∧ (0 : Int) ≤ ((0 : Nat) : Int) := by
  have hm : (0 : Nat) ∈ sampleWrapped.get_grid_position := by
    simp [sampleWrapped, sampleBlockU8, WrappedBlock.get_grid_position,
      WrappedBlock.fromBlock]
  exact ⟨hm, claim_C10_grid_position_unsigned .u8 sampleWrapped 0 hm⟩
